import Mathlib

/-!
Verification of the knxmap sources against their specification.

We shallowly embed the two source files:
  * `src/knxmap.py` — the CLI entry point (`main`);
  * `src/knxmap/bus/monitor.py` — the `KnxBusMonitor` protocol class
    (`connection_made`, `datagram_received`, `print_message`).

Python side effects (logging, sending datagrams, closing the transport,
resolving the future, scheduling timers) are modelled as an explicit
`Effect` list produced by each handler; a raised Python exception is the
`Option PyError` component of the result.  Message classes, cEMI constants
and the inherited tunnel-connection helpers live in modules that are not
part of the two source files; they are modelled from the specification
where needed and marked as such.
-/

namespace Knxmap

/-- Python exceptions that the embedded code can raise. -/
inductive PyError : Type
  | nameError (n : String)
  | assertionError
  | unboundLocalError (n : String)
  | attributeError (n : String)
  | keyError
  | typeError (n : String)
  deriving DecidableEq, Repr

/-- TPCI information attached to a cEMI frame (`cemi.tpci` in the source).
Modelled from the spec: 2-bit type and 4-bit sequence number (§3 TPCI);
the class itself is defined outside the given sources. -/
structure Tpci where
  tpci_type : Nat
  sequence : Nat
  deriving DecidableEq, Repr

/-- APCI information attached to a cEMI frame (`cemi.apci` in the source).
Modelled from the spec: 10-bit service code plus service data (§3 APCI);
the class itself is defined outside the given sources. -/
structure Apci where
  apci_type : Nat
  apci_data : Nat
  deriving DecidableEq, Repr

/-- A parsed cEMI frame as `print_message` and `datagram_received` use it.
Modelled from the spec: message code, additional-info TLVs, control fields,
source/destination addresses, TPCI/APCI (§3, §4.1 cEMI parsing); the class
is defined outside the given sources.  `knx_destination` is `Option Nat`
so that both an absent (`None`) and a zero destination are falsy, matching
Python truthiness.  `extended_control_field` and `additional_information`
are Python dicts, modelled as association lists (empty list = falsy). -/
structure CemiFrame where
  message_code : Nat
  additional_information : List (String × List Nat)
  knx_source : Nat
  knx_destination : Option Nat
  extended_control_field : List (String × Nat)
  tpci : Option Tpci
  apci : Option Apci
  raw_frame : List Nat
  deriving DecidableEq, Repr

/-- Fields of a `KnxConnectResponse` that `datagram_received` reads.
Modelled from the spec: CONNECT_RESPONSE carries a status and the assigned
communication channel (§4.3); the class is defined outside the given
sources.  `ERROR` is `none` on success (falsy in Python), otherwise a
human-readable description; `ERROR_CODE` is the numeric status. -/
structure ConnectResponseData where
  ERROR : Option String
  ERROR_CODE : Nat
  communication_channel : Nat
  deriving DecidableEq, Repr

/-- Fields of a `KnxTunnellingRequest` that the monitor reads.
Modelled from the spec: channel id, sequence counter and cEMI body
(§4.1, §4.3); the class is defined outside the given sources.
`cemi` is `Option` so that a falsy (`None`) cEMI is representable. -/
structure TunnellingRequestData where
  communication_channel : Nat
  sequence_counter : Nat
  cemi : Option CemiFrame
  deriving DecidableEq, Repr

/-- The tagged variants of `parse_message`.  Modelled from the spec:
dynamic `isinstance` dispatch on parsed messages maps to a tagged variant
over service identifiers (§9); the classes are defined outside the given
sources.  Distinct services are distinct constructors, so a
`KnxTunnellingAck` is never a `KnxTunnellingRequest`. -/
inductive KnxMessage : Type
  | connectResponse (d : ConnectResponseData)
  | tunnellingRequest (d : TunnellingRequestData)
  | tunnellingAck (communication_channel sequence_counter : Nat)
  | connectionStateResponse (status : Nat)
  | disconnectRequest
  | disconnectResponse
  deriving DecidableEq, Repr

/-- Observable side effects of the monitor handlers, in program order. -/
inductive Effect : Type
  | logError (msg : String)
  | traceIncoming
  | traceOutgoing
  | tunnelDisconnect
  | closeTransport
  | setFutureResult
  | sendConnectRequest (layer : String)
  | sendTunnellingAck (communication_channel sequence_counter : Nat)
  | sendDisconnectResponse (communication_channel : Nat)
  | callLater (delay : Nat) (callback : String)
  | printGroupRecord (chan_id seq_no : Nat) (msg_code : Option String)
      (src_addr dst_addr : String) (tpci_type : Option String)
      (tpci_seq : Nat) (apci_type : Option String) (apci_data : Nat)
  | printBusRecord (chan_id seq_no : Nat) (msg_code : Option String)
      (timestamp : List Nat) (raw_frame : List Nat)
  deriving DecidableEq, Repr

/-- Mutable state of a `KnxBusMonitor` instance that the embedded handlers
read or write (`group_monitor`, `tunnel_established`,
`communication_channel`). -/
structure MonitorState where
  group_monitor : Bool
  tunnel_established : Bool
  communication_channel : Nat
  deriving DecidableEq, Repr

/-- `dict.get(key)`: `none` when the key is missing, no exception. -/
def dictGet {α : Type} (d : List (String × α)) (k : String) : Option α :=
  (d.find? (fun p => p.1 = k)).map (fun p => p.2)

/-- Python truthiness of an optional integer: `None` and `0` are falsy. -/
def truthyOptNat (o : Option Nat) : Bool :=
  match o with
  | none => false
  | some n => n != 0

/-- `CEMI_PRIMITIVES` from `knxmap.data.constants`.  Modelled from the
spec: it maps cEMI message codes to their names (L_Data.req/con/ind,
L_Busmon.ind, L_Raw.*, M_PropRead.req/con, §3); the dict itself is defined
outside the given sources, with the standard cEMI code numbers. -/
def CEMI_PRIMITIVES : List (Nat × String) :=
  [(0x10, "L_Raw.req"), (0x11, "L_Data.req"), (0x13, "L_Poll_Data.req"),
   (0x25, "L_Poll_Data.con"), (0x29, "L_Data.ind"), (0x2b, "L_Busmon.ind"),
   (0x2d, "L_Raw.ind"), (0x2e, "L_Data.con"), (0x2f, "L_Raw.con"),
   (0xfb, "M_PropRead.con"), (0xfc, "M_PropRead.req")]

/-- `_CEMI_TPCI_TYPES` from `knxmap.data.constants`.  Modelled from the
spec: the 2-bit TPCI type is one of UDT, NDT, UCD, NCD (§3); the dict
itself is defined outside the given sources. -/
def CEMI_TPCI_TYPES : List (Nat × String) :=
  [(0x00, "UDT"), (0x01, "NDT"), (0x02, "UCD"), (0x03, "NCD")]

/-- `_CEMI_APCI_TYPES` from `knxmap.data.constants`.  Modelled from the
spec: the 10-bit APCI service code names group-value, memory, descriptor,
property and authorize services (§3); the dict itself is defined outside
the given sources (a representative sample suffices, lookups fall back to
`none` like `dict.get`). -/
def CEMI_APCI_TYPES : List (Nat × String) :=
  [(0x000, "A_GroupValue_Read"), (0x040, "A_GroupValue_Response"),
   (0x080, "A_GroupValue_Write"), (0x0c0, "A_IndividualAddress_Write"),
   (0x100, "A_IndividualAddress_Read"), (0x140, "A_IndividualAddress_Response"),
   (0x2d8, "A_Authorize_Request"), (0x2d9, "A_Authorize_Response"),
   (0x300, "A_DeviceDescriptor_Read"), (0x340, "A_DeviceDescriptor_Response")]

/-- `KnxMessage.parse_knx_address`.  Modelled from the spec: a 16-bit
individual address splits as area (4 bits) / line (4 bits) / device
(8 bits), rendered `a.l.d` (§3); the method is defined outside the given
sources. -/
def parse_knx_address (addr : Nat) : String :=
  toString (addr / 4096 % 16) ++ "." ++ toString (addr / 256 % 16) ++ "." ++
    toString (addr % 256)

/-- `KnxMessage.parse_knx_group_address`.  Modelled from the spec: a
16-bit group address splits 3-level as main (5 bits) / middle (3 bits) /
sub (8 bits) (§3); the method is defined outside the given sources. -/
def parse_knx_group_address (addr : Nat) : String :=
  toString (addr / 2048 % 32) ++ "/" ++ toString (addr / 256 % 8) ++ "/" ++
    toString (addr % 256)

/-- `KnxBusMonitor.print_message` (monitor.py lines 81-118).  The leading
`assert isinstance(message, KnxTunnellingRequest)` fails for every other
variant.  Locals `cemi`, `tpci`, `apci` start as `{}` (modelled `none` /
missing): attribute access on the dict raises `AttributeError`;
`dst_addr` is assigned only under a truthy `cemi.knx_destination`, and
referencing it unassigned raises `UnboundLocalError`.  Format arguments
are evaluated left to right, so the first failing one determines the
exception.  The emitted record is the effect; its exact string rendering
is presenter territory. -/
def print_message (group_monitor : Bool) (message : KnxMessage) :
    List Effect × Option PyError :=
  match message with
  | .tunnellingRequest d =>
    match d.cemi with
    | none =>
      -- `cemi` stayed the `{}` dict; `cemi.knx_destination` raises
      ([], some (.attributeError "knx_destination"))
    | some c =>
      let tpci : Option Tpci := c.tpci
      let apci : Option Apci := if c.tpci.isSome then c.apci else none
      let dst_addr : Option String :=
        if truthyOptNat c.knx_destination then
          if c.extended_control_field != [] &&
              truthyOptNat (dictGet c.extended_control_field "address_type") then
            some (parse_knx_group_address ((c.knx_destination).getD 0))
          else
            some (parse_knx_address ((c.knx_destination).getD 0))
        else none
      if group_monitor then
        let msg_code := (CEMI_PRIMITIVES.lookup c.message_code)
        let src_addr := parse_knx_address c.knx_source
        match dst_addr with
        | none => ([], some (.unboundLocalError "dst_addr"))
        | some dst =>
          match tpci with
          | none => ([], some (.attributeError "tpci_type"))
          | some t =>
            match apci with
            | none => ([], some (.attributeError "apci_type"))
            | some a =>
              ([.printGroupRecord d.communication_channel d.sequence_counter
                  msg_code src_addr dst (CEMI_TPCI_TYPES.lookup t.tpci_type)
                  t.sequence (CEMI_APCI_TYPES.lookup a.apci_type) a.apci_data],
               none)
      else
        match dictGet c.additional_information "timestamp" with
        | none =>
          -- `codecs.encode(None, 'hex')` raises
          ([], some (.typeError "timestamp"))
        | some ts =>
          ([.printBusRecord d.communication_channel d.sequence_counter
              (CEMI_PRIMITIVES.lookup c.message_code) ts c.raw_frame], none)
  | _ => ([], some .assertionError)

/-- `KnxBusMonitor.connection_made` (monitor.py lines 19-33): send a
CONNECT_REQUEST whose layer depends on `group_monitor`, then schedule the
first keepalive 50 seconds later. -/
def connection_made (s : MonitorState) : List Effect :=
  (if s.group_monitor then
    [.traceOutgoing, .sendConnectRequest "TUNNEL_LINKLAYER"]
   else
    [.traceOutgoing, .sendConnectRequest "TUNNEL_BUSMONITOR"]) ++
  [.callLater 50 "knx_keep_alive"]

/-- `KnxBusMonitor.datagram_received` (monitor.py lines 35-79).  The
input is the raw datagram (for the error log) together with the result of
`parse_message` (`none` = decode failure); `parse_message` itself lives
outside the given sources.  `knx_tunnel_disconnect` (inherited from
`KnxTunnelConnection`, also outside the given sources) is kept opaque as
the `tunnelDisconnect` effect.  A `PyError` escaping `print_message`
aborts the handler, so the remaining effects are not produced. -/
def datagram_received (s : MonitorState) (data : List Nat)
    (parsed : Option KnxMessage) :
    MonitorState × List Effect × Option PyError :=
  match parsed with
  | none =>
    (s, [.logError ("Invalid KNX message: " ++ toString data),
         .tunnelDisconnect, .closeTransport, .setFutureResult], none)
  | some m =>
    match m with
    | .connectResponse d =>
      match d.ERROR with
      | none =>
        ({ s with tunnel_established := true,
                  communication_channel := d.communication_channel },
         [.traceIncoming], none)
      | some err =>
        let msg :=
          if !s.group_monitor && d.ERROR_CODE == 0x23 then
            "Device does not support BUSMONITOR, try --group-monitor instead"
          else
            "Connection setup error: " ++ err
        (s, [.traceIncoming, .logError msg, .closeTransport, .setFutureResult],
         none)
    | .tunnellingRequest d =>
      let printed := print_message s.group_monitor m
      match printed.2 with
      | some e => (s, .traceIncoming :: printed.1, some e)
      | none =>
        match d.cemi with
        | none => (s, .traceIncoming :: printed.1, some (.attributeError "message_code"))
        | some c =>
          match CEMI_PRIMITIVES.lookup c.message_code with
          | none => (s, .traceIncoming :: printed.1, some .keyError)
          | some prim =>
            if prim == "L_Data.con" || prim == "L_Data.ind" ||
                prim == "L_Busmon.ind" then
              (s, .traceIncoming :: printed.1 ++
                    [.traceOutgoing,
                     .sendTunnellingAck d.communication_channel
                       d.sequence_counter], none)
            else
              (s, .traceIncoming :: printed.1, none)
    | .tunnellingAck _ _ =>
      let printed := print_message s.group_monitor m
      (s, .traceIncoming :: printed.1, printed.2)
    | .connectionStateResponse _ =>
      (s, [.traceIncoming, .callLater 50 "knx_keep_alive"], none)
    | .disconnectRequest =>
      (s, [.traceIncoming, .sendDisconnectResponse s.communication_channel,
           .closeTransport, .setFutureResult], none)
    | .disconnectResponse =>
      (s, [.traceIncoming, .closeTransport, .setFutureResult], none)

/-! ## The CLI entry point, `src/knxmap.py` -/

/-- The names bound at module level in `knxmap.py`: the imports
(`import sys`, `import os`, `import argparse`, `import logging`,
`from libknxmap import KnxMap, Targets, KnxTargets`, `import asyncio`)
and the module-level definitions (`LOGGER`, `ARGS`, `main`).
`KnxScanner` is not among them. -/
def moduleLevelNames : List String :=
  ["sys", "os", "argparse", "logging", "KnxMap", "Targets", "KnxTargets",
   "asyncio", "LOGGER", "ARGS", "main"]

/-- The argument record produced by `ARGS.parse_args()`, with the fields
`main` reads. -/
structure Args where
  targets : List String
  port : Nat
  workers : Nat
  iface : Option String
  search_mode : Bool
  search_timeout : Nat
  desc_timeout : Nat
  desc_retries : Nat
  bus_targets : Option String
  bus_info : Bool
  bus_monitor_mode : Bool
  group_monitor_mode : Bool
  level : Nat
  bruteforce_key : Bool
  auth_key : Nat
  group_write_value : Option String
  group_write_address : Option String
  routing : Bool
  deriving DecidableEq, Repr

/-- How a run of `main` ends. -/
inductive MainOutcome : Type
  | exited (code : Nat)
  | raised (e : PyError)
  | ran
  deriving DecidableEq, Repr

/-- The scanner construction `KnxScanner(targets=..., max_workers=...)`
at knxmap.py line 120: Python resolves the name `KnxScanner` at call
time; an unbound name raises `NameError`. -/
def constructScanner : MainOutcome :=
  if moduleLevelNames.contains "KnxScanner" then .ran
  else .raised (.nameError "KnxScanner")

/-- `main` (knxmap.py lines 96-154).  `Targets`, `KnxTargets` and the
logging configuration do not affect control flow and are elided; `euid`
is the result of `os.geteuid()`.  Usage check: no targets and no
`--search` prints help and exits 1.  Search checks: `--search` without
`-i` exits 1; `--search` with `-i` but without euid 0 exits 1.  Any run
surviving the checks reaches the `KnxScanner(...)` construction. -/
def main (args : Args) (euid : Nat) : MainOutcome :=
  if args.targets = [] && !args.search_mode then .exited 1
  else if args.search_mode then
    if args.iface = none then .exited 1
    else if euid != 0 then .exited 1
    else constructScanner
  else constructScanner


/-! ## Concrete sample values used by witnesses and counterexamples -/

/-- A group-monitor session state. -/
def s0 : MonitorState := ⟨true, false, 1⟩

/-- A bus-monitor session state. -/
def sBus : MonitorState := ⟨false, false, 1⟩

/-- A fully populated cEMI frame with the given message code. -/
def goodCemi (code : Nat) : CemiFrame :=
  { message_code := code, additional_information := [("timestamp", [0, 1])],
    knx_source := 0x1102, knx_destination := some 0x0a03,
    extended_control_field := [("address_type", 1)],
    tpci := some ⟨0, 0⟩, apci := some ⟨0x080, 1⟩, raw_frame := [0xcc] }

/-- A well-formed L_Data.ind tunnelling request. -/
def goodReq (ch seq : Nat) : KnxMessage :=
  .tunnellingRequest ⟨ch, seq, some (goodCemi 0x29)⟩

/-- The error text monitor.py line 52 actually logs. -/
def busmonErrText : String :=
  "Device does not support BUSMONITOR, try --group-monitor instead"

/-- Does this effect deliver a record to the monitor sink? -/
def isMonitorRecord : Effect → Bool
  | .printGroupRecord _ _ _ _ _ _ _ _ _ => true
  | .printBusRecord _ _ _ _ _ => true
  | _ => false

/-- A `--search` argument vector with no interface. -/
def searchArgsNoIface : Args :=
  { targets := [], port := 3671, workers := 30, iface := none,
    search_mode := true, search_timeout := 5, desc_timeout := 2,
    desc_retries := 3, bus_targets := none, bus_info := false,
    bus_monitor_mode := false, group_monitor_mode := false, level := 2,
    bruteforce_key := false, auth_key := 0xffffffff,
    group_write_value := none, group_write_address := none, routing := false }

/-! ## Helper lemmas -/

/-- `print_message` never emits a tunnelling acknowledgement: its effect
list is empty or a single monitor record. -/
theorem print_message_count_ack (gm : Bool) (m : KnxMessage) (ch q : Nat) :
    (print_message gm m).1.count (Effect.sendTunnellingAck ch q) = 0 := by
  unfold print_message
  cases m <;> simp only
  all_goals (repeat' split) <;> simp [List.count_cons]

/-- Processing an inbound tunnelling request never changes the monitor
state. -/
theorem datagram_received_req_state (s : MonitorState) (data : List Nat)
    (d : TunnellingRequestData) :
    (datagram_received s data (some (.tunnellingRequest d))).1 = s := by
  unfold datagram_received
  simp only
  (repeat' split) <;> simp_all

/-! ## Claims -/

/-- C1: every argument vector that passes the usage checks (some target
given, or `--search` with an interface and euid 0) makes `main` raise a
`NameError` when constructing the scanner: `KnxScanner` is referenced at
knxmap.py line 120 but never defined or imported, so neither `scan` nor
`group_writer` is ever reached. -/
theorem C1_main_raises_name_error (args : Args) (euid : Nat)
    (h1 : args.targets ≠ [] ∨ args.search_mode = true)
    (h2 : args.search_mode = true → args.iface ≠ none ∧ euid = 0) :
    main args euid = .raised (.nameError "KnxScanner") := by
  have hcs : constructScanner = .raised (.nameError "KnxScanner") := by decide
  cases hs : args.search_mode with
  | true =>
    obtain ⟨hif, heu⟩ := h2 hs
    simp [main, hs, hif, heu, hcs]
  | false =>
    have ht : args.targets ≠ [] := by
      rcases h1 with h | h
      · exact h
      · rw [hs] at h; exact absurd h (by decide)
    simp [main, hs, ht, hcs]

/-- C1 witness: a run with one target raises the `NameError`. -/
theorem C1_main_raises_name_error_witness :
    main { searchArgsNoIface with targets := ["192.0.2.1"], search_mode := false }
        1000 = .raised (.nameError "KnxScanner") :=
  C1_main_raises_name_error _ 1000 (Or.inl (by decide))
    (fun h => absurd h (by decide))

/-- C2 counterexample: a single undecodable datagram already tears the
session down — the effect list of the very first malformed frame contains
the tunnel disconnect, the transport close and the future resolution, so
the session does not continue and no 5-frame counter exists. -/
theorem C2_counterexample :
    (datagram_received s0 [0xde, 0xad] none).2.1 =
      [.logError "Invalid KNX message: [222, 173]", .tunnelDisconnect,
       .closeTransport, .setFutureResult] ∧
    Effect.tunnelDisconnect ∈ (datagram_received s0 [0xde, 0xad] none).2.1 ∧
    Effect.closeTransport ∈ (datagram_received s0 [0xde, 0xad] none).2.1 ∧
    Effect.setFutureResult ∈ (datagram_received s0 [0xde, 0xad] none).2.1 := by
  refine ⟨rfl, ?_, ?_, ?_⟩ <;> decide

/-- C2 amended: for every inbound datagram that fails to decode as a KNX
message, the monitor session logs the error and immediately tears down:
it sends a tunnel disconnect, closes the transport and resolves the
completion future on the very first malformed frame. -/
theorem C2_theorem (s : MonitorState) (data : List Nat) :
    datagram_received s data none =
      (s, [.logError ("Invalid KNX message: " ++ toString data),
           .tunnelDisconnect, .closeTransport, .setFutureResult], none) := rfl

/-- C6: every inbound TUNNELLING_ACK is passed to `print_message`, whose
leading `assert isinstance(message, KnxTunnellingRequest)` fails, so no
ack record is ever printed — the handler ends in an `AssertionError`
after only the incoming-trace effect. -/
theorem C6_theorem (s : MonitorState) (data : List Nat) (ch q : Nat) :
    print_message s.group_monitor (.tunnellingAck ch q) =
      ([], some .assertionError) ∧
    datagram_received s data (some (.tunnellingAck ch q)) =
      (s, [.traceIncoming], some .assertionError) := ⟨rfl, rfl⟩

/-- C7 counterexample: a CONNECTIONSTATE_RESPONSE with the non-zero
status 0x21 still reschedules the keepalive 50 seconds later — the
handler never inspects the status, refuting that rescheduling happens
only on NO_ERROR. -/
theorem C7_counterexample :
    datagram_received s0 [] (some (.connectionStateResponse 0x21)) =
      (s0, [.traceIncoming, .callLater 50 "knx_keep_alive"], none) ∧
    (0x21 : Nat) ≠ 0 := ⟨rfl, by decide⟩

/-- C7 amended: the first CONNECTIONSTATE_REQUEST keepalive is scheduled
50 s after the connection is made, and the keepalive is rescheduled for
50 s later upon receiving any CONNECTIONSTATE_RESPONSE, regardless of its
status (the handler never inspects it; no retry or teardown logic lives
here). -/
theorem C7_theorem (s : MonitorState) (data : List Nat) (status : Nat) :
    Effect.callLater 50 "knx_keep_alive" ∈ connection_made s ∧
    datagram_received s data (some (.connectionStateResponse status)) =
      (s, [.traceIncoming, .callLater 50 "knx_keep_alive"], none) := by
  refine ⟨?_, rfl⟩
  cases hs : s.group_monitor <;> simp [connection_made, hs]

/-- C9: on every inbound DISCONNECT_REQUEST the monitor session replies
with a DISCONNECT_RESPONSE carrying its own communication channel, closes
the transport and resolves its completion future, ending the session. -/
theorem C9_theorem (s : MonitorState) (data : List Nat) :
    datagram_received s data (some .disconnectRequest) =
      (s, [.traceIncoming, .sendDisconnectResponse s.communication_channel,
           .closeTransport, .setFutureResult], none) := rfl

/-- C10: in group-monitor mode, `dst_addr` is assigned only under a truthy
cEMI destination; for every tunnelling request whose cEMI destination is
absent (`None`) or zero, the group-monitor record formatting references
`dst_addr` unassigned and raises `UnboundLocalError` instead of emitting
a record. -/
theorem C10_theorem (s : MonitorState) (data : List Nat)
    (d : TunnellingRequestData) (c : CemiFrame)
    (hc : d.cemi = some c) (hd : truthyOptNat c.knx_destination = false)
    (hg : s.group_monitor = true) :
    print_message s.group_monitor (.tunnellingRequest d) =
      ([], some (.unboundLocalError "dst_addr")) ∧
    datagram_received s data (some (.tunnellingRequest d)) =
      (s, [.traceIncoming], some (.unboundLocalError "dst_addr")) := by
  have hp : print_message s.group_monitor (.tunnellingRequest d) =
      ([], some (.unboundLocalError "dst_addr")) := by
    unfold print_message
    simp [hc, hd, hg]
  refine ⟨hp, ?_⟩
  unfold datagram_received
  simp [hp]

/-- A frame whose destination address is zero (falsy). -/
def zeroDstCemi : CemiFrame := { goodCemi 0x29 with knx_destination := some 0 }

/-- C10 witness: a concrete request with destination 0 in group-monitor
mode raises `UnboundLocalError` for `dst_addr`. -/
theorem C10_theorem_witness :
    print_message true (.tunnellingRequest ⟨7, 5, some zeroDstCemi⟩) =
      ([], some (.unboundLocalError "dst_addr")) :=
  (C10_theorem s0 [] ⟨7, 5, some zeroDstCemi⟩ zeroDstCemi rfl rfl rfl).1

/-- `print_message` never emits a tunnelling acknowledgement. -/
theorem print_message_no_ack (gm : Bool) (m : KnxMessage) (ch q : Nat) :
    Effect.sendTunnellingAck ch q ∉ (print_message gm m).1 := by
  intro h
  have h0 := print_message_count_ack gm m ch q
  rw [List.count_eq_zero] at h0
  exact h0 h

/-- monitor.py lines 57-66 reduced: handling of a tunnelling request
whose `print_message` succeeded and whose cEMI message code resolves to
`prim` splits only on whether `prim` is one of the three acked
primitives. -/
theorem datagram_received_req_eq (s : MonitorState) (data : List Nat)
    (d : TunnellingRequestData) (c : CemiFrame) (prim : String)
    (hc : d.cemi = some c)
    (hl : CEMI_PRIMITIVES.lookup c.message_code = some prim)
    (hp : (print_message s.group_monitor (.tunnellingRequest d)).2 = none) :
    datagram_received s data (some (.tunnellingRequest d)) =
      if prim == "L_Data.con" || prim == "L_Data.ind" ||
          prim == "L_Busmon.ind" then
        (s, .traceIncoming ::
              (print_message s.group_monitor (.tunnellingRequest d)).1 ++
              [.traceOutgoing, .sendTunnellingAck d.communication_channel
                d.sequence_counter], none)
      else
        (s, .traceIncoming ::
              (print_message s.group_monitor (.tunnellingRequest d)).1,
         none) := by
  unfold datagram_received
  simp only [hc, hl, hp]

set_option maxRecDepth 10000 in
/-- C3 counterexample: the monitor acks tunnelling requests without any
channel or sequence verification.  From a session whose channel is 1, a
request on channel 99 is acked; requests with sequence 0 and with
sequence 100 are both acked from the same state, yet no single `recv_seq`
value below 256 has both 0 and 100 in `\x7brecv_seq, recv_seq − 1 (mod
256)\x7d`. -/
theorem C3_counterexample :
    Effect.sendTunnellingAck 99 0 ∈
      (datagram_received s0 [] (some (goodReq 99 0))).2.1 ∧
    Effect.sendTunnellingAck 99 100 ∈
      (datagram_received s0 [] (some (goodReq 99 100))).2.1 ∧
    s0.communication_channel ≠ 99 ∧
    ((List.range 256).all (fun r =>
      !((0 == r || 0 == (r + 255) % 256) &&
        (100 == r || 100 == (r + 255) % 256))) = true) := by
  refine ⟨?_, ?_, ?_, ?_⟩ <;> decide

/-- C3 amended: for every TUNNELLING_REQUEST on which `print_message`
succeeds, the session emits exactly one TUNNELLING_ACK carrying the
request's own channel and sequence number if and only if the request's
cEMI message code maps to L_Data.con, L_Data.ind or L_Busmon.ind; the
communication channel and the sequence number are never verified, and a
request with any other message code gets no acknowledgement. -/
theorem C3_theorem (s : MonitorState) (data : List Nat)
    (d : TunnellingRequestData) (c : CemiFrame) (prim : String)
    (hc : d.cemi = some c)
    (hl : CEMI_PRIMITIVES.lookup c.message_code = some prim)
    (hp : (print_message s.group_monitor (.tunnellingRequest d)).2 = none) :
    ((prim = "L_Data.con" ∨ prim = "L_Data.ind" ∨ prim = "L_Busmon.ind") →
      (datagram_received s data (some (.tunnellingRequest d))).2.1.count
        (Effect.sendTunnellingAck d.communication_channel d.sequence_counter)
        = 1) ∧
    (prim ≠ "L_Data.con" → prim ≠ "L_Data.ind" → prim ≠ "L_Busmon.ind" →
      ∀ ch q, Effect.sendTunnellingAck ch q ∉
        (datagram_received s data (some (.tunnellingRequest d))).2.1) := by
  rw [datagram_received_req_eq s data d c prim hc hl hp]
  constructor
  · intro hin
    have hb : (prim == "L_Data.con" || prim == "L_Data.ind" ||
        prim == "L_Busmon.ind") = true := by
      rcases hin with h | h | h <;> simp [h]
    simp only [hb, if_true]
    simp [List.count_cons, List.count_append,
      print_message_count_ack s.group_monitor (.tunnellingRequest d)]
  · intro h1 h2 h3 ch q
    have hb : (prim == "L_Data.con" || prim == "L_Data.ind" ||
        prim == "L_Busmon.ind") = false := by
      simp [h1, h2, h3]
    simp only [hb, if_false, Bool.false_eq_true]
    intro hmem
    rcases List.mem_cons.mp hmem with h | h
    · exact Effect.noConfusion h
    · exact print_message_no_ack s.group_monitor (.tunnellingRequest d) ch q h

/-- C3 witness: a concrete L_Data.ind request with channel 7 and
sequence 5 receives exactly one ack carrying channel 7 and sequence 5. -/
theorem C3_theorem_witness :
    (datagram_received s0 [] (some (goodReq 7 5))).2.1.count
      (Effect.sendTunnellingAck 7 5) = 1 :=
  (C3_theorem s0 [] ⟨7, 5, some (goodCemi 0x29)⟩ (goodCemi 0x29) "L_Data.ind"
      rfl rfl rfl).1 (Or.inr (Or.inl rfl))

set_option maxRecDepth 10000 in
/-- C4 counterexample: a duplicate inbound tunnelling request is
re-delivered to the monitor sink.  Processing a concrete request leaves
the state unchanged and emits one monitor record; processing the same
request again from the resulting state emits a monitor record a second
time. -/
theorem C4_counterexample :
    (datagram_received s0 [] (some (goodReq 7 5))).1 = s0 ∧
    (datagram_received s0 [] (some (goodReq 7 5))).2.1.countP
      (fun e => isMonitorRecord e) = 1 ∧
    (datagram_received (datagram_received s0 [] (some (goodReq 7 5))).1 []
        (some (goodReq 7 5))).2.1.countP
      (fun e => isMonitorRecord e) = 1 := by
  refine ⟨rfl, ?_, ?_⟩ <;> decide

/-- C4 amended: the monitor keeps no receive-sequence state at all —
processing an inbound tunnelling request leaves the session state
unchanged, and reprocessing the identical request (a duplicate) yields
the identical result, so a duplicate is delivered to the monitor sink
and acked exactly like the original. -/
theorem C4_theorem (s : MonitorState) (data : List Nat)
    (d : TunnellingRequestData) :
    (datagram_received s data (some (.tunnellingRequest d))).1 = s ∧
    datagram_received (datagram_received s data (some (.tunnellingRequest d))).1
        data (some (.tunnellingRequest d)) =
      datagram_received s data (some (.tunnellingRequest d)) := by
  refine ⟨datagram_received_req_state s data d, ?_⟩
  rw [datagram_received_req_state s data d]

/-- C5 counterexample: on a BUSMONITOR connect rejected with status 0x23
the logged text is "Device does not support BUSMONITOR, try
--group-monitor instead", not the exact text the claim states. -/
theorem C5_counterexample :
    datagram_received sBus []
        (some (.connectResponse ⟨some "E_CONNECTION_OPTION", 0x23, 0⟩)) =
      (sBus, [.traceIncoming, .logError busmonErrText, .closeTransport,
              .setFutureResult], none) ∧
    busmonErrText ≠ "device does not support bus monitor; try group monitor"
      := by
  refine ⟨rfl, ?_⟩
  decide

/-- C5 amended: when a bus-monitor session's CONNECT_REQUEST is answered
by a CONNECT_RESPONSE with error status 0x23, the session logs the error
"Device does not support BUSMONITOR, try --group-monitor instead",
closes its transport and resolves its future; any other non-zero status
yields the generic "Connection setup error" message instead. -/
theorem C5_theorem (s : MonitorState) (data : List Nat) (err : String)
    (ec ch : Nat) (hg : s.group_monitor = false) :
    (ec = 0x23 →
      datagram_received s data (some (.connectResponse ⟨some err, ec, ch⟩)) =
        (s, [.traceIncoming, .logError busmonErrText, .closeTransport,
             .setFutureResult], none)) ∧
    (ec ≠ 0x23 →
      datagram_received s data (some (.connectResponse ⟨some err, ec, ch⟩)) =
        (s, [.traceIncoming, .logError ("Connection setup error: " ++ err),
             .closeTransport, .setFutureResult], none)) := by
  constructor
  · intro he
    subst he
    unfold datagram_received
    simp [hg, busmonErrText]
  · intro he
    unfold datagram_received
    simp [hg, he]

/-- C5 witness: the concrete 0x23 rejection of a bus-monitor session. -/
theorem C5_theorem_witness :
    datagram_received sBus []
        (some (.connectResponse ⟨some "E_CONNECTION_OPTION", 0x23, 0⟩)) =
      (sBus, [.traceIncoming, .logError busmonErrText, .closeTransport,
              .setFutureResult], none) :=
  (C5_theorem sBus [] "E_CONNECTION_OPTION" 0x23 0 rfl).1 rfl

/-- C8 counterexample: `--search` without an interface exits with code 1,
and `--search` with an interface but without superuser rights also exits
with code 1 — never with code 2. -/
theorem C8_counterexample :
    main searchArgsNoIface 1000 = .exited 1 ∧
    main { searchArgsNoIface with iface := some "eth0" } 1000 = .exited 1 ∧
    MainOutcome.exited 1 ≠ MainOutcome.exited 2 := by
  refine ⟨?_, ?_, ?_⟩ <;> decide

/-- C8 amended: when `--search` is requested without the privileges it
needs (a named interface and superuser rights), the program refuses to
run, emits a diagnostic and exits with code 1 — the same exit code a
plain usage error (no targets and no `--search`) produces. -/
theorem C8_theorem (args : Args) (euid : Nat) :
    (args.search_mode = true → args.iface = none ∨ euid ≠ 0 →
      main args euid = .exited 1) ∧
    (args.targets = [] → args.search_mode = false →
      main args euid = .exited 1) := by
  constructor
  · intro hs hor
    rcases hor with hif | heu
    · simp [main, hs, hif]
    · by_cases hif : args.iface = none
      · simp [main, hs, hif]
      · simp [main, hs, hif, heu]
  · intro ht hs
    simp [main, ht, hs]

/-- C8 witness: the concrete no-interface search run exits 1. -/
theorem C8_theorem_witness : main searchArgsNoIface 1000 = .exited 1 :=
  (C8_theorem searchArgsNoIface 1000).1 rfl (Or.inl rfl)

end Knxmap
